import Mathlib

/-!
# Verification of the Fantasy NBA data-fetch pipeline (`fetch_data.py`)

A shallow embedding of the pipeline in `src/fetch_data.py`:
retry wrapper, season calculation, ESPN schedule normalisation,
player-stats join, persistence, and the orchestrator's exit decision.
Machine integers are `Nat`; Python exceptions are explicit outcome values;
tabular query results are lists of typed rows; external library calls
(HTTP, date parsing, file I/O) are parameters of the embedded functions.
-/

namespace FetchData

/-! ## Configuration constants (`fetch_data.py` lines 21-23) -/

def TIMEOUT : Nat := 60
def MAX_RETRIES : Nat := 3
def RETRY_DELAY : Nat := 5

/-! ## `retry_api_call` (lines 31-44)

A wrapped operation is modelled as a function from the 0-based attempt
index to an outcome.  `transient` stands for the exception classes caught
by the `except` clause (`ReadTimeout`, `ConnectionError`,
`RequestException`); `fatal` stands for any other exception, which the
wrapper does not catch.  The embedding returns, besides the final outcome
(`none` models Python's implicit `return None` when `retries = 0`), the
list of back-off sleeps performed and the number of calls made. -/

inductive ApiOutcome (α : Type) where
  | ok : α → ApiOutcome α
  | transient : String → ApiOutcome α
  | fatal : String → ApiOutcome α
deriving DecidableEq, Repr

structure RetryTrace (α : Type) where
  result : Option (ApiOutcome α)
  sleeps : List Nat
  calls : Nat
deriving DecidableEq, Repr

/-- The `for i in range(retries)` loop of `retry_api_call`, at attempt
index `i` with the given number of loop iterations remaining.  On a
transient failure at the last remaining iteration (`i = retries - 1` in
the source, i.e. remaining = 1) the exception is re-raised; otherwise the
wrapper sleeps `delay * (i + 1)` and retries. -/
def retryGo {α : Type} (f : Nat → ApiOutcome α) (delay : Nat) :
    Nat → Nat → RetryTrace α
  | _, 0 => ⟨none, [], 0⟩
  | i, rem + 1 =>
    match f i with
    | .ok a => ⟨some (.ok a), [], 1⟩
    | .fatal e => ⟨some (.fatal e), [], 1⟩
    | .transient e =>
      if rem = 0 then ⟨some (.transient e), [], 1⟩
      else
        let t := retryGo f delay (i + 1) rem
        ⟨t.result, delay * (i + 1) :: t.sleeps, t.calls + 1⟩

def retry_api_call {α : Type} (f : Nat → ApiOutcome α)
    (retries : Nat := MAX_RETRIES) (delay : Nat := RETRY_DELAY) :
    RetryTrace α :=
  retryGo f delay 0 retries

/-! ## Season calculation (`main`, lines 383-387 and 405-414) -/

/-- Python's `s[-2:]` character slice, used as `str(year)[-2:]`. -/
def lastTwo (s : String) : String :=
  ⟨s.data.drop (s.data.length - 2)⟩

/-- Lines 383-387: the season label `f"{y}-{str(y+1)[-2:]}"` under the
October rollover rule. -/
def season_label (y m : Nat) : String :=
  if 10 ≤ m then Nat.repr y ++ "-" ++ lastTwo (Nat.repr (y + 1))
  else Nat.repr (y - 1) ++ "-" ++ lastTwo (Nat.repr y)

/-- A calendar date `(year, month, day)` as built by
`datetime(y, m, d).date()`. -/
abbrev Date := Nat × Nat × Nat

/-- Lines 405-414: season start/end bounds from the reference date's year
and month.  Note the three-way branch: Oct-Dec, Jan-Apr, and May-Sep. -/
def season_bounds (y m : Nat) : Date × Date :=
  if 10 ≤ m then ((y, 10, 1), (y + 1, 4, 15))
  else if m ≤ 4 then ((y - 1, 10, 1), (y, 4, 15))
  else ((y, 10, 1), (y + 1, 4, 15))

/-- The bounds as the spec's words describe them (for comparison with
`season_bounds`): the label's October rollover rule applied uniformly,
any month < 10 selecting the previous year. -/
def season_bounds_claim (y m : Nat) : Date × Date :=
  if 10 ≤ m then ((y, 10, 1), (y + 1, 4, 15))
  else ((y - 1, 10, 1), (y, 4, 15))

/-! ## Schedule fetch (`fetch_schedule_espn`, lines 47-177) -/

/-- The `team` object of an ESPN competitor: the fields read by the code
(`id`, converted with `int(...)`, and `abbreviation`). -/
structure EspnTeam where
  id : Nat
  abbreviation : String
deriving DecidableEq, Repr

/-- One entry of a competition's `competitors` array.  `team = none`
models a missing or empty (hence falsy) `team` object. -/
structure Competitor where
  homeAway : String
  team : Option EspnTeam
deriving DecidableEq, Repr

structure Competition where
  competitors : List Competitor
deriving DecidableEq, Repr

/-- One entry of the response's `events` array. -/
structure Event where
  date : String
  competitions : List Competition
deriving DecidableEq, Repr

/-- The 30-code NBA whitelist of lines 115-119. -/
def nba_teams : List String :=
  ["ATL", "BOS", "BKN", "CHA", "CHI", "CLE", "DAL", "DEN", "DET", "GS",
   "HOU", "IND", "LAC", "LAL", "MEM", "MIA", "MIL", "MIN", "NO", "NY",
   "OKC", "ORL", "PHI", "PHX", "POR", "SA", "SAC", "TOR", "UTAH", "WSH"]

/-- One element of the `games` array (lines 143-158). -/
structure GameEntry where
  date : String
  team_id : Nat
  team_abbr : String
  matchup : String
  is_home : Bool
deriving DecidableEq, Repr

/-- Lines 105-109: the classification loop.  Both slots start as `None`;
each competitor overwrites the home slot when its `homeAway` flag is
`"home"` and the away slot otherwise, so the last matching competitor
wins. -/
def findHomeAway (cs : List Competitor) :
    Option EspnTeam × Option EspnTeam :=
  cs.foldl
    (fun ha c =>
      if c.homeAway = "home" then (c.team, ha.2) else (ha.1, c.team))
    (none, none)

/-- Lines 87-158: processing of a single event.  `parseET` abstracts the
`datetime.fromisoformat` / UTC-5 conversion of lines 129-139 (an external
library call); it returns `str(game_date_only)` or `none` when parsing
raises. -/
def processEvent (parseET : String → Option String) (e : Event) :
    List GameEntry :=
  match e.competitions.head? with
  | none => []
  | some competition =>
    if competition.competitors.length < 2 then []
    else
      match findHomeAway competition.competitors with
      | (some home_team, some away_team) =>
        if home_team.abbreviation ∈ nba_teams ∧
            away_team.abbreviation ∈ nba_teams then
          match parseET e.date with
          | none => []
          | some gdate =>
            [⟨gdate, home_team.id, home_team.abbreviation,
              home_team.abbreviation ++ " vs. " ++ away_team.abbreviation,
              true⟩,
             ⟨gdate, away_team.id, away_team.abbreviation,
              away_team.abbreviation ++ " @ " ++ home_team.abbreviation,
              false⟩]
        else []
      | _ => []

/-- The snapshot envelope of lines 169-174. -/
structure ScheduleEnvelope where
  season : String
  source : String
  updated_at : String
  games : List GameEntry
deriving DecidableEq, Repr

/-- Lines 61-177: the events of each successfully fetched window are
processed in order and accumulated into `all_games`; the function returns
`none` when `all_games` is empty (`return result if all_games else None`).
`now` abstracts `datetime.now().isoformat()`. -/
def all_games_of (parseET : String → Option String)
    (windows : List (List Event)) : List GameEntry :=
  (windows.foldr (· ++ ·) []).foldr (fun e acc => processEvent parseET e ++ acc) []

def fetch_schedule_espn (parseET : String → Option String) (now : String)
    (windows : List (List Event)) : Option ScheduleEnvelope :=
  if (all_games_of parseET windows).isEmpty then none
  else some ⟨"2025-26", "ESPN API", now, all_games_of parseET windows⟩

/-- The artifact name `f'schedule_{current_season}.json'` (line 418). -/
def schedule_filename (season : String) : String :=
  "schedule_" ++ season ++ ".json"

/-! ## Player stats fetch (`fetch_player_stats`, lines 180-291) -/

/-- One row of a `LeagueDashPlayerStats` result set, restricted to the
columns the code reads.  Numeric stat columns are modelled as rationals
(the `float(...)` conversions read finite decimal values). -/
structure StatsRow where
  player_id : Nat
  player_name : String
  team_abbreviation : String
  gp : Nat
  min : ℚ
  pts : ℚ
  reb : ℚ
  ast : ℚ
  stl : ℚ
  blk : ℚ
  tov : ℚ
  fg_pct : ℚ
  ft_pct : ℚ
  fg3m : ℚ
deriving DecidableEq, Repr

/-- The dictionary appended to `players_data` (lines 252-276). -/
structure PlayerStatRecord where
  player_id : Nat
  name : String
  team : String
  gp : Nat
  min_avg : ℚ
  pts_avg : ℚ
  reb_avg : ℚ
  ast_avg : ℚ
  stl_avg : ℚ
  blk_avg : ℚ
  tov_avg : ℚ
  fg_pct : ℚ
  ft_pct : ℚ
  fg3m_avg : ℚ
  pts_tot : ℚ
  reb_tot : ℚ
  ast_tot : ℚ
  stl_tot : ℚ
  blk_tot : ℚ
  tov_tot : ℚ
  fg3m_tot : ℚ
deriving DecidableEq, Repr

/-- The `team_abbr_map` of lines 240-247, applied with
`.get(original_team, original_team)`: NBA-Stats codes remapped to ESPN
codes, unknown codes passing through unchanged. -/
def team_abbr_map : List (String × String) :=
  [("GSW", "GS"), ("NOP", "NO"), ("NYK", "NY"),
   ("SAS", "SA"), ("UTA", "UTAH"), ("WAS", "WSH")]

def remap_team (c : String) : String :=
  ((team_abbr_map.lookup c).getD c)

/-- Lines 252-276: the record built for one average row `pa` and its
matching totals row `pt`. -/
def mergeRows (pa pt : StatsRow) : PlayerStatRecord :=
  { player_id := pa.player_id
    name := pa.player_name
    team := remap_team pa.team_abbreviation
    gp := pa.gp
    min_avg := pa.min
    pts_avg := pa.pts
    reb_avg := pa.reb
    ast_avg := pa.ast
    stl_avg := pa.stl
    blk_avg := pa.blk
    tov_avg := pa.tov
    fg_pct := pa.fg_pct
    ft_pct := pa.ft_pct
    fg3m_avg := pa.fg3m
    pts_tot := pt.pts
    reb_tot := pt.reb
    ast_tot := pt.ast
    stl_tot := pt.stl
    blk_tot := pt.blk
    tov_tot := pt.tov
    fg3m_tot := pt.fg3m }

/-- Lines 221-276: filter both frames to `GP > 0`, then for each
surviving average row look up the first totals row with the same
`PLAYER_ID` (`df_tot[df_tot['PLAYER_ID'] == player_id]`, `.iloc[0]`),
skipping the player when the selection is empty. -/
def buildPlayers (df_avg df_tot : List StatsRow) : List PlayerStatRecord :=
  (df_avg.filter (fun r => 0 < r.gp)).filterMap (fun pa =>
    match ((df_tot.filter (fun r => 0 < r.gp)).filter
        (fun r => r.player_id = pa.player_id)).head? with
    | none => none
    | some pt => some (mergeRows pa pt))

/-- The snapshot envelope of lines 278-284. -/
structure StatsEnvelope where
  season : String
  period : String
  date_from : Option String
  updated_at : String
  players : List PlayerStatRecord
deriving DecidableEq, Repr

/-- Lines 208-291.  The two queries are modelled by their outcomes: an
`ApiOutcome` carrying the result set on success.  The enclosing
`try/except` turns any raised failure (retry exhaustion included) into
`None`; a successful but empty average result set also yields `None`
(line 217-219).  The average query runs first, so its failure
short-circuits the totals query. -/
def fetch_player_stats (avgRes totRes : ApiOutcome (List StatsRow))
    (season : String) (date_from : Option String) (label : String)
    (now : String) : Option StatsEnvelope :=
  match avgRes with
  | .transient _ => none
  | .fatal _ => none
  | .ok df_avg =>
    match totRes with
    | .transient _ => none
    | .fatal _ => none
    | .ok df_tot =>
      if df_avg.isEmpty then none
      else some ⟨season, label, date_from, now, buildPlayers df_avg df_tot⟩

/-! ## Persistence (`save_json`, lines 348-362)

The artifact on disk is modelled as an `Option` of its content; the
actual `open`/`json.dump` call is abstracted by `writeAttempt`, which
maps the data and the previous artifact state to the outcome flag and the
new state.  A `None` input returns `False` before any file operation, so
the artifact state is untouched. -/

def save_json {α : Type} (data : Option α)
    (writeAttempt : α → Option α → Bool × Option α)
    (artifact : Option α) : Bool × Option α :=
  match data with
  | none => (false, artifact)
  | some d => writeAttempt d artifact

/-! ## Orchestrator exit decision (`main`, lines 442-457) -/

/-- Lines 442-452: `success_count >= total_count / 2` under Python 3 true
division, then `sys.exit(0)` or `sys.exit(1)`. -/
def exit_code (results : List Bool) : Nat :=
  let success_count := (results.filter id).length
  let total_count := results.length
  if ((success_count : ℚ) ≥ (total_count : ℚ) / 2) then 0 else 1

/-! ## Auxiliary definitions used in the statements below -/

/-- Whether a query outcome is a raised failure (of either class). -/
def ApiOutcome.failed {α : Type} : ApiOutcome α → Bool
  | .ok _ => false
  | .transient _ => true
  | .fatal _ => true

/-- The two-digit decimal rendering of a value `< 100`, the shape of the
short-year half of a `"YYYY-YY"` label. -/
def twoDigitRepr (k : Nat) : String :=
  ⟨[Nat.digitChar (k / 10), Nat.digitChar (k % 10)]⟩

/-- A date-parse stand-in that always succeeds, for concrete runs. -/
def constParse : String → Option String := fun _ => some "2025-10-05"

/-- Concrete fixtures: teams and events used to run the embedded
schedule pipeline on closed inputs. -/
def exTeamHome : EspnTeam := ⟨2, "BOS"⟩

def exTeamAway : EspnTeam := ⟨18, "NY"⟩

def exTeamAway2 : EspnTeam := ⟨1, "ATL"⟩

def exTeamForeign : EspnTeam := ⟨99, "RMD"⟩

/-- A well-formed event with exactly two participants. -/
def twoCompetitorEvent : Event :=
  ⟨"2025-10-05T23:00Z",
   [⟨[⟨"home", some exTeamHome⟩, ⟨"away", some exTeamAway⟩]⟩]⟩

/-- An event with three participants (one home, two away). -/
def threeCompetitorEvent : Event :=
  ⟨"2025-10-05T23:00Z",
   [⟨[⟨"home", some exTeamHome⟩, ⟨"away", some exTeamAway⟩,
      ⟨"away", some exTeamAway2⟩]⟩]⟩

/-- An event whose away participant is not an NBA team. -/
def foreignOpponentEvent : Event :=
  ⟨"2025-10-05T23:00Z",
   [⟨[⟨"home", some exTeamHome⟩, ⟨"away", some exTeamForeign⟩]⟩]⟩

/-- The envelope produced by the embedded schedule fetch on the one-event
window list `[[twoCompetitorEvent]]`. -/
def exEnvelope : ScheduleEnvelope :=
  ⟨"2025-26", "ESPN API", "2025-11-15T08:00:00",
   [⟨"2025-10-05", 2, "BOS", "BOS vs. NY", true⟩,
    ⟨"2025-10-05", 18, "NY", "NY @ BOS", false⟩]⟩

end FetchData

/-! # Theorems -/

namespace FetchData

/-! ## C1 — season start/end bounds vs. the label rollover rule -/

/-- Claim C1 as stated is false: for a reference date in June 2025 the
code's bounds select the current year (the upcoming 2025-26 season),
while the label's rollover rule (month < 10 selects the previous year)
would select 2024. -/
theorem season_bounds_offseason_counterexample :
    season_bounds 2025 6 ≠ season_bounds_claim 2025 6 := by
  decide

/-- Claim C1 (amended): the bounds follow the label's rollover rule for
months 1-4 and 10-12 (start = October 1 of the rollover year, end =
April 15 of the following year), but for the off-season months 5-9 the
code selects the current year — the upcoming season — diverging from the
label's rollover rule. -/
theorem season_bounds_amended :
    (∀ y m : Nat, 10 ≤ m ∨ m ≤ 4 →
      season_bounds y m = season_bounds_claim y m) ∧
    (∀ y m : Nat, 5 ≤ m → m ≤ 9 →
      season_bounds y m = ((y, 10, 1), (y + 1, 4, 15))) := by
  constructor
  · intro y m h
    unfold season_bounds season_bounds_claim
    rcases h with h | h
    · simp [h]
    · have h10 : ¬ 10 ≤ m := by omega
      simp [h10, h]
  · intro y m h5 h9
    have h10 : ¬ 10 ≤ m := by omega
    have h4 : ¬ m ≤ 4 := by omega
    simp [season_bounds, h10, h4]

/-- Instantiation of `season_bounds_amended` at November (rollover
branch) and June (off-season branch) 2025. -/
theorem season_bounds_amended_witness :
    season_bounds 2025 11 = season_bounds_claim 2025 11 ∧
    season_bounds 2025 6 = ((2025, 10, 1), (2026, 4, 15)) :=
  ⟨season_bounds_amended.1 2025 11 (Or.inl (by norm_num)),
   season_bounds_amended.2 2025 6 (by norm_num) (by norm_num)⟩

/-! ## C5 — exit status: at least half of the five artifacts -/

/-- The rational comparison `success_count >= total_count / 2` of
line 452, as an equivalent comparison of naturals. -/
lemma exit_code_eq (l : List Bool) :
    exit_code l = if l.length ≤ 2 * (l.filter id).length then 0 else 1 := by
  by_cases h : l.length ≤ 2 * (l.filter id).length
  · have hn : l.length ≤ (l.filter id).length * 2 := by omega
    have hq : ((l.length : ℚ) / 2 ≤ ((l.filter id).length : ℚ)) := by
      rw [div_le_iff₀ (by norm_num : (0 : ℚ) < 2)]
      exact_mod_cast hn
    simp [exit_code, ge_iff_le, hq, h]
  · have hq : ¬ ((l.length : ℚ) / 2 ≤ ((l.filter id).length : ℚ)) := by
      rw [div_le_iff₀ (by norm_num : (0 : ℚ) < 2)]
      intro hc
      have hn : l.length ≤ (l.filter id).length * 2 := by exact_mod_cast hc
      omega
    simp [exit_code, ge_iff_le, hq, h]

/-- Claim C5: with five tracked artifacts, the run exits 0 exactly when
at least 3 succeeded (`success_count >= 5 / 2` under true division) and
exits 1 otherwise; in particular 3 successes exit 0 and 2 successes
exit 1. -/
theorem exit_code_half_of_five :
    (∀ b1 b2 b3 b4 b5 : Bool,
      (exit_code [b1, b2, b3, b4, b5] = 0 ↔
        3 ≤ ([b1, b2, b3, b4, b5].filter id).length) ∧
      (exit_code [b1, b2, b3, b4, b5] = 1 ↔
        ([b1, b2, b3, b4, b5].filter id).length ≤ 2)) ∧
    exit_code [true, true, true, false, false] = 0 ∧
    exit_code [true, true, false, false, false] = 1 := by
  refine ⟨?_, by rw [exit_code_eq]; decide, by rw [exit_code_eq]; decide⟩
  intro b1 b2 b3 b4 b5
  rw [exit_code_eq]
  have h5 : ([b1, b2, b3, b4, b5] : List Bool).length = 5 := by simp
  rw [h5]
  constructor <;> · split <;> omega

end FetchData

namespace FetchData

/-! ## C9 — idempotence of the team-abbreviation remap -/

/-- Claim C9: the remap is idempotent on every code, every canonical
(whitelisted ESPN) code passes through unchanged, and every code outside
the six-entry table passes through unchanged. -/
theorem remap_team_idempotent :
    (∀ c : String, remap_team (remap_team c) = remap_team c) ∧
    (∀ c ∈ nba_teams, remap_team c = c) ∧
    (∀ c : String, team_abbr_map.lookup c = none → remap_team c = c) := by
  refine ⟨?_, by decide, ?_⟩
  · intro c
    by_cases h : c ∈ (["GSW", "NOP", "NYK", "SAS", "UTA", "WAS"] : List String)
    · simp only [List.mem_cons, List.not_mem_nil, or_false] at h
      rcases h with h | h | h | h | h | h <;> subst h <;> decide
    · simp only [List.mem_cons, List.not_mem_nil, or_false, not_or] at h
      obtain ⟨h1, h2, h3, h4, h5, h6⟩ := h
      have b1 : (c == "GSW") = false := beq_eq_false_iff_ne.mpr h1
      have b2 : (c == "NOP") = false := beq_eq_false_iff_ne.mpr h2
      have b3 : (c == "NYK") = false := beq_eq_false_iff_ne.mpr h3
      have b4 : (c == "SAS") = false := beq_eq_false_iff_ne.mpr h4
      have b5 : (c == "UTA") = false := beq_eq_false_iff_ne.mpr h5
      have b6 : (c == "WAS") = false := beq_eq_false_iff_ne.mpr h6
      have hnone : team_abbr_map.lookup c = none := by
        simp [team_abbr_map, List.lookup, b1, b2, b3, b4, b5, b6]
      simp [remap_team, hnone]
  · intro c h
    simp [remap_team, h]

/-- Instantiation of `remap_team_idempotent`: the canonical code `GS`
and the unknown code `XYZ` are fixed points. -/
theorem remap_team_idempotent_witness :
    remap_team "GS" = "GS" ∧ remap_team "XYZ" = "XYZ" :=
  ⟨remap_team_idempotent.2.1 "GS" (by decide),
   remap_team_idempotent.2.2 "XYZ" (by decide)⟩

/-! ## C10 — the schedule envelope's hard-coded season field -/

/-- Helper: any envelope the schedule fetch returns carries the literal
season `"2025-26"`. -/
lemma fetch_schedule_espn_season (parseET : String → Option String)
    (now : String) (windows : List (List Event)) (env : ScheduleEnvelope)
    (h : fetch_schedule_espn parseET now windows = some env) :
    env.season = "2025-26" := by
  unfold fetch_schedule_espn at h
  split at h
  · exact absurd h (by simp)
  · cases h
    rfl

/-- Helper: the artifact name `schedule_<season>.json` determines the
season string. -/
lemma schedule_filename_inj {s t : String}
    (h : schedule_filename s = schedule_filename t) : s = t := by
  unfold schedule_filename at h
  have hd := congrArg String.data h
  simp only [String.data_append] at hd
  have h1 := List.append_cancel_right hd
  have h2 := List.append_cancel_left h1
  cases s
  cases t
  exact congrArg String.mk h2

/-- Claim C10: every envelope the schedule fetch returns has season
field `"2025-26"`, whatever the windows and dates were; hence whenever
the orchestrator's computed season label differs from `"2025-26"`, the
artifact name `schedule_<label>.json` names a season that the envelope's
own season field contradicts. -/
theorem schedule_season_hardcoded :
    (∀ (parseET : String → Option String) (now : String)
       (windows : List (List Event)) (env : ScheduleEnvelope),
      fetch_schedule_espn parseET now windows = some env →
      env.season = "2025-26") ∧
    (∀ (parseET : String → Option String) (now : String)
       (windows : List (List Event)) (env : ScheduleEnvelope)
       (y m : Nat),
      fetch_schedule_espn parseET now windows = some env →
      season_label y m ≠ "2025-26" →
      schedule_filename (season_label y m) ≠
        schedule_filename env.season) := by
  refine ⟨fetch_schedule_espn_season, ?_⟩
  intro parseET now windows env y m h hne heq
  exact hne ((schedule_filename_inj heq).trans
    (fetch_schedule_espn_season parseET now windows env h))

/-- Instantiation of `schedule_season_hardcoded` on a concrete one-event
window list and the season label computed for November 2024. -/
theorem schedule_season_hardcoded_witness :
    exEnvelope.season = "2025-26" ∧
    schedule_filename (season_label 2024 11) ≠
      schedule_filename exEnvelope.season :=
  ⟨schedule_season_hardcoded.1 constParse "2025-11-15T08:00:00"
      [[twoCompetitorEvent]] exEnvelope (by decide),
   schedule_season_hardcoded.2 constParse "2025-11-15T08:00:00"
      [[twoCompetitorEvent]] exEnvelope 2024 11 (by decide) (by decide)⟩

end FetchData

namespace FetchData

/-! ## C2 — participant-count filtering of schedule events -/

/-- Claim C2 as stated is false: the code only skips events with *fewer*
than two participants (`len(competitors) < 2`), so an event carrying
three participants (one home, two away) still contributes two GameEntry
records (home paired with the last away participant). -/
theorem processEvent_three_participants_counterexample :
    ((threeCompetitorEvent.competitions.head?.map
        (fun c => c.competitors.length)).getD 0) = 3 ∧
    processEvent constParse threeCompetitorEvent ≠ [] := by
  decide

/-- Claim C2 (amended): an event contributes GameEntry records only if
it has at least two participants; an event whose participant count is
below two is skipped.  (Events with more than two participants are not
skipped by this check.) -/
theorem processEvent_requires_two_participants :
    ∀ (parseET : String → Option String) (e : Event),
      processEvent parseET e ≠ [] →
      ∃ comp, e.competitions.head? = some comp ∧
        2 ≤ comp.competitors.length := by
  intro p e h
  unfold processEvent at h
  cases hc : e.competitions.head? with
  | none => rw [hc] at h; simp at h
  | some comp =>
    rw [hc] at h
    refine ⟨comp, rfl, ?_⟩
    by_contra hlt
    have hl2 : comp.competitors.length < 2 := by omega
    simp [hl2] at h

/-- Instantiation of `processEvent_requires_two_participants` on a
concrete two-participant event whose output is nonempty. -/
theorem processEvent_requires_two_participants_witness :
    ∃ comp, twoCompetitorEvent.competitions.head? = some comp ∧
      2 ≤ comp.competitors.length :=
  processEvent_requires_two_participants constParse twoCompetitorEvent
    (by decide)

/-! ## C8 — the team-code whitelist invariant -/

/-- Claim C8: every GameEntry produced by event processing carries a
whitelisted team code, and an event whose classified home or away
participant has a non-whitelisted code is discarded whole. -/
theorem schedule_entries_whitelisted :
    (∀ (parseET : String → Option String) (e : Event) (entry : GameEntry),
      entry ∈ processEvent parseET e → entry.team_abbr ∈ nba_teams) ∧
    (∀ (parseET : String → Option String) (e : Event)
       (comp : Competition) (home_team away_team : EspnTeam),
      e.competitions.head? = some comp →
      findHomeAway comp.competitors = (some home_team, some away_team) →
      home_team.abbreviation ∉ nba_teams ∨
        away_team.abbreviation ∉ nba_teams →
      processEvent parseET e = []) := by
  constructor
  · intro p e entry hmem
    unfold processEvent at hmem
    split at hmem
    · simp at hmem
    · split at hmem
      · simp at hmem
      · split at hmem
        · split at hmem
          · rename_i hwl
            split at hmem
            · simp at hmem
            · simp only [List.mem_cons, List.not_mem_nil, or_false]
                at hmem
              rcases hmem with hmem | hmem
              · subst hmem; exact hwl.1
              · subst hmem; exact hwl.2
          · simp at hmem
        · simp at hmem
  · intro p e comp home_t away_t hc hha hbad
    have hnot : ¬ (home_t.abbreviation ∈ nba_teams ∧
        away_t.abbreviation ∈ nba_teams) := by tauto
    unfold processEvent
    split
    · rfl
    · rename_i competition heq
      rw [hc] at heq
      injection heq with heq
      subst heq
      split
      · rfl
      · split
        · rename_i heq2
          rw [hha] at heq2
          simp only [Prod.mk.injEq, Option.some.injEq] at heq2
          obtain ⟨h1, h2⟩ := heq2
          subst h1
          subst h2
          rw [if_neg hnot]
        · rfl

/-- Instantiation of `schedule_entries_whitelisted`: a produced entry's
code is whitelisted, and an event with a non-NBA opponent produces
nothing. -/
theorem schedule_entries_whitelisted_witness :
    (⟨"2025-10-05", 2, "BOS", "BOS vs. NY", true⟩ : GameEntry).team_abbr
      ∈ nba_teams ∧
    processEvent constParse foreignOpponentEvent = [] :=
  ⟨schedule_entries_whitelisted.1 constParse twoCompetitorEvent _
      (by decide),
   schedule_entries_whitelisted.2 constParse foreignOpponentEvent
      ⟨[⟨"home", some exTeamHome⟩, ⟨"away", some exTeamForeign⟩]⟩
      exTeamHome exTeamForeign (by decide) (by decide)
      (Or.inr (by decide))⟩

end FetchData

namespace FetchData

/-! ## C3 — a record exists iff the player is in both result sets -/

/-- Claim C3: the player-stats output contains a record for player `P`
exactly when `P` appears with `GP > 0` in both the average-mode and the
total-mode result set; in particular no partial record is ever
produced. -/
theorem player_record_iff_both_sources :
    ∀ (df_avg df_tot : List StatsRow) (P : Nat),
      (∃ rec ∈ buildPlayers df_avg df_tot, rec.player_id = P) ↔
      ((∃ r ∈ df_avg, r.player_id = P ∧ 0 < r.gp) ∧
       (∃ r ∈ df_tot, r.player_id = P ∧ 0 < r.gp)) := by
  intro df_avg df_tot P
  unfold buildPlayers
  constructor
  · rintro ⟨rec, hmem, hid⟩
    rw [List.mem_filterMap] at hmem
    obtain ⟨pa, hpa, hf⟩ := hmem
    rw [List.mem_filter] at hpa
    obtain ⟨hpa_mem, hpa_gp⟩ := hpa
    cases hl : ((df_tot.filter (fun r => 0 < r.gp)).filter
        (fun r => r.player_id = pa.player_id)) with
    | nil => rw [hl] at hf; simp at hf
    | cons pt rest =>
      rw [hl] at hf
      simp only [List.head?_cons, Option.some.injEq] at hf
      have hpt : pt ∈ (df_tot.filter (fun r => 0 < r.gp)).filter
          (fun r => r.player_id = pa.player_id) := by
        rw [hl]; exact List.mem_cons_self pt rest
      rw [List.mem_filter, List.mem_filter] at hpt
      obtain ⟨⟨hpt_mem, hpt_gp⟩, hpt_id⟩ := hpt
      have hrecid : rec.player_id = pa.player_id := by
        rw [← hf]; rfl
      constructor
      · exact ⟨pa, hpa_mem, by rw [← hid, hrecid],
          by simpa using hpa_gp⟩
      · refine ⟨pt, hpt_mem, ?_, by simpa using hpt_gp⟩
        have : pt.player_id = pa.player_id := by simpa using hpt_id
        rw [this, ← hrecid, hid]
  · rintro ⟨⟨ra, hra, hraP, hragp⟩, ⟨rt, hrt, hrtP, hrtgp⟩⟩
    have hraF : ra ∈ df_avg.filter (fun r => 0 < r.gp) := by
      rw [List.mem_filter]; exact ⟨hra, by simpa using hragp⟩
    have hrtF : rt ∈ (df_tot.filter (fun r => 0 < r.gp)).filter
        (fun r => r.player_id = ra.player_id) := by
      rw [List.mem_filter, List.mem_filter]
      exact ⟨⟨hrt, by simpa using hrtgp⟩, by simp [hrtP, hraP]⟩
    cases hl : ((df_tot.filter (fun r => 0 < r.gp)).filter
        (fun r => r.player_id = ra.player_id)) with
    | nil => rw [hl] at hrtF; simp at hrtF
    | cons pt rest =>
      refine ⟨mergeRows ra pt, ?_, ?_⟩
      · rw [List.mem_filterMap]
        refine ⟨ra, hraF, ?_⟩
        rw [hl]
        rfl
      · show ra.player_id = P
        exact hraP

end FetchData

namespace FetchData

/-! ## C4 — when the player-stats fetch returns null, and its effect -/

/-- Claim C4: the player-stats fetch returns `none` exactly when the
average-mode query raised (retry exhaustion included), the total-mode
query raised, or the average-mode query returned no rows; and feeding
`none` to the persistence step returns `false` and leaves the previous
artifact state untouched. -/
theorem player_stats_null_iff :
    (∀ (avgRes totRes : ApiOutcome (List StatsRow)) (season : String)
       (date_from : Option String) (label now : String),
      fetch_player_stats avgRes totRes season date_from label now = none ↔
        (avgRes.failed = true ∨ totRes.failed = true ∨
          avgRes = .ok ([] : List StatsRow))) ∧
    (∀ (w : StatsEnvelope → Option StatsEnvelope →
          Bool × Option StatsEnvelope)
       (artifact : Option StatsEnvelope),
      save_json none w artifact = (false, artifact)) := by
  constructor
  · intro avgRes totRes s d l n
    cases avgRes with
    | transient e => simp [fetch_player_stats, ApiOutcome.failed]
    | fatal e => simp [fetch_player_stats, ApiOutcome.failed]
    | ok rows =>
      cases totRes with
      | transient e => simp [fetch_player_stats, ApiOutcome.failed]
      | fatal e => simp [fetch_player_stats, ApiOutcome.failed]
      | ok trows =>
        cases rows with
        | nil => simp [fetch_player_stats, ApiOutcome.failed]
        | cons r rs => simp [fetch_player_stats, ApiOutcome.failed]
  · intro w artifact
    rfl

/-! ## C6 — retry policy: backoff, attempt cap, propagation -/

/-- Helper: the loop never makes more calls than it has remaining
iterations. -/
lemma retryGo_calls_le {α : Type} (f : Nat → ApiOutcome α) (delay : Nat) :
    ∀ (rem i : Nat), (retryGo f delay i rem).calls ≤ rem := by
  intro rem
  induction rem with
  | zero => intro i; simp [retryGo]
  | succ r ih =>
    intro i
    unfold retryGo
    cases f i with
    | ok a => simp
    | fatal e => simp
    | transient e =>
      by_cases h : r = 0
      · simp [h]
      · simpa [h] using ih (i + 1)

/-- Claim C6: when every attempt fails transiently, the wrapper sleeps
`delay * 1` then `delay * 2` between its `MAX_RETRIES = 3` attempts and
re-raises the third attempt's failure; and on any wrapped operation the
number of calls never exceeds the attempt cap. -/
theorem retry_policy_spec :
    (∀ (α : Type) (f : Nat → ApiOutcome α) (delay : Nat)
       (es : Nat → String),
      (∀ i, i < MAX_RETRIES → f i = .transient (es i)) →
      retry_api_call f MAX_RETRIES delay =
        ⟨some (.transient (es 2)), [delay * 1, delay * 2], 3⟩) ∧
    (∀ (α : Type) (g : Nat → ApiOutcome α) (r delay : Nat),
      (retry_api_call g r delay).calls ≤ r) := by
  constructor
  · intro α f delay es h
    have h0 := h 0 (by decide)
    have h1 := h 1 (by decide)
    have h2 := h 2 (by decide)
    simp [retry_api_call, MAX_RETRIES, retryGo, h0, h1, h2]
  · intro α g r delay
    exact retryGo_calls_le g delay r 0

/-- Instantiation of `retry_policy_spec` on an operation that fails
transiently at every attempt with error message `Nat.repr i`, and a cap
check on an always-succeeding operation. -/
theorem retry_policy_spec_witness :
    retry_api_call
        (fun i => ApiOutcome.transient (α := Unit) (Nat.repr i))
        MAX_RETRIES 5 =
      ⟨some (.transient (Nat.repr 2)), [5 * 1, 5 * 2], 3⟩ ∧
    (retry_api_call (fun _ => ApiOutcome.ok ()) MAX_RETRIES 5).calls
      ≤ MAX_RETRIES :=
  ⟨retry_policy_spec.1 Unit _ 5 (fun i => Nat.repr i) (fun _ _ => rfl),
   retry_policy_spec.2 Unit _ MAX_RETRIES 5⟩

end FetchData

namespace FetchData

/-! ## C7 — the season label and its scenario values

The short half of the `"YYYY-YY"` label is produced by `str(y)[-2:]`;
the lemmas below identify it with the two-digit decimal rendering of
`y mod 100` for every year of at least two digits. -/

lemma repr_data (n : Nat) : (Nat.repr n).data = Nat.toDigits 10 n := rfl

/-- Accumulator lemma for core's fuelled digit loop. -/
lemma toDigitsCore_append (b : Nat) (hb : 2 ≤ b) :
    ∀ (f n : Nat) (ds : List Char), n < f →
      Nat.toDigitsCore b f n ds = Nat.toDigitsCore b f n [] ++ ds := by
  intro f
  induction f with
  | zero => intro n ds h; exact absurd h (Nat.not_lt_zero n)
  | succ f ih =>
    intro n ds h
    simp only [Nat.toDigitsCore]
    by_cases h0 : n / b = 0
    · simp [h0]
    · have hnpos : 0 < n := by
        rcases Nat.eq_zero_or_pos n with h' | h'
        · subst h'; simp [Nat.zero_div] at h0
        · exact h'
      have hn' : n / b < f := by
        have hlt : n / b < n := Nat.div_lt_self hnpos (by omega)
        omega
      simp only [h0, if_false]
      rw [ih (n / b) (Nat.digitChar (n % b) :: ds) hn',
          ih (n / b) [Nat.digitChar (n % b)] hn']
      simp

/-- The fuel is irrelevant as long as it dominates the argument. -/
lemma toDigitsCore_fuel (b : Nat) (hb : 2 ≤ b) :
    ∀ (n f1 f2 : Nat), n < f1 → n < f2 →
      Nat.toDigitsCore b f1 n [] = Nat.toDigitsCore b f2 n [] := by
  intro n
  induction n using Nat.strong_induction_on with
  | _ n ih =>
    intro f1 f2 h1 h2
    cases f1 with
    | zero => omega
    | succ g1 =>
      cases f2 with
      | zero => omega
      | succ g2 =>
        simp only [Nat.toDigitsCore]
        by_cases h0 : n / b = 0
        · simp [h0]
        · have hnpos : 0 < n := by
            rcases Nat.eq_zero_or_pos n with h' | h'
            · subst h'; simp [Nat.zero_div] at h0
            · exact h'
          have hdiv : n / b < n := Nat.div_lt_self hnpos (by omega)
          simp only [h0, if_false]
          rw [toDigitsCore_append b hb g1 (n / b) _ (by omega),
              toDigitsCore_append b hb g2 (n / b) _ (by omega),
              ih (n / b) hdiv g1 g2 (by omega) (by omega)]

/-- Peeling the least significant digit off `Nat.toDigits`. -/
lemma toDigits_split (b n : Nat) (hb : 2 ≤ b) (hn : b ≤ n) :
    Nat.toDigits b n =
      Nat.toDigits b (n / b) ++ [Nat.digitChar (n % b)] := by
  have h0 : n / b ≠ 0 := by
    have h1 : 1 ≤ n / b := (Nat.one_le_div_iff (by omega)).mpr hn
    omega
  have hdiv : n / b < n :=
    Nat.div_lt_self (by omega) (by omega)
  have hstep : Nat.toDigitsCore b (n + 1) n [] =
      Nat.toDigitsCore b n (n / b) [Nat.digitChar (n % b)] := by
    simp only [Nat.toDigitsCore]
    rw [if_neg h0]
  unfold Nat.toDigits
  rw [hstep,
      toDigitsCore_append b hb n (n / b) [Nat.digitChar (n % b)] hdiv,
      toDigitsCore_fuel b hb (n / b) n (n / b + 1) hdiv (Nat.lt_succ_self _)]

/-- A single-digit value renders as its one digit character. -/
lemma toDigits_small (b n : Nat) (hn : n < b) :
    Nat.toDigits b n = [Nat.digitChar n] := by
  unfold Nat.toDigits
  simp only [Nat.toDigitsCore]
  rw [if_pos (Nat.div_eq_of_lt hn), Nat.mod_eq_of_lt hn]

/-- `str(n)[-2:]` is the two-digit rendering of `n mod 100`, for every
`n` of at least two digits. -/
lemma lastTwo_repr (n : Nat) (hn : 10 ≤ n) :
    lastTwo (Nat.repr n) = twoDigitRepr (n % 100) := by
  have hsplit := toDigits_split 10 n (by norm_num) (by omega)
  unfold lastTwo twoDigitRepr
  apply congrArg String.mk
  by_cases hcase : n < 100
  · have hsmall : Nat.toDigits 10 (n / 10) = [Nat.digitChar (n / 10)] :=
      toDigits_small 10 (n / 10) (by omega)
    have e1 : n % 100 / 10 = n / 10 := by omega
    have e2 : n % 100 % 10 = n % 10 := by omega
    rw [repr_data, hsplit, hsmall, e1, e2]
    simp
  · have hsplit2 := toDigits_split 10 (n / 10) (by norm_num) (by omega)
    have e1 : n % 100 / 10 = n / 10 % 10 := by omega
    have e2 : n % 100 % 10 = n % 10 := by omega
    rw [repr_data, hsplit, hsplit2, List.append_assoc, e1, e2]
    have hlen : (Nat.toDigits 10 (n / 10 / 10) ++
        ([Nat.digitChar (n / 10 % 10)] ++ [Nat.digitChar (n % 10)])).length
          - 2 = (Nat.toDigits 10 (n / 10 / 10)).length := by
      simp
    rw [hlen, List.drop_left]
    rfl

/-- Claim C7: for every reference date with a (at least) two-digit year,
the season label is `<y>-<two digits of (y+1) mod 100>` when the month
is ≥ 10 and `<y-1>-<two digits of y mod 100>` otherwise; in particular
2025-11-15 yields `"2025-26"` with bounds 2025-10-01 / 2026-04-15 and
2025-03-01 yields `"2024-25"` with bounds 2024-10-01 / 2025-04-15. -/
theorem season_label_rollover :
    (∀ y m : Nat, 10 ≤ y →
      season_label y m =
        if 10 ≤ m then Nat.repr y ++ "-" ++ twoDigitRepr ((y + 1) % 100)
        else Nat.repr (y - 1) ++ "-" ++ twoDigitRepr (y % 100)) ∧
    (season_label 2025 11 = "2025-26" ∧
      season_bounds 2025 11 = ((2025, 10, 1), (2026, 4, 15))) ∧
    (season_label 2025 3 = "2024-25" ∧
      season_bounds 2025 3 = ((2024, 10, 1), (2025, 4, 15))) := by
  refine ⟨?_, ⟨by decide, by decide⟩, ⟨by decide, by decide⟩⟩
  intro y m hy
  unfold season_label
  by_cases hm : 10 ≤ m
  · rw [if_pos hm, if_pos hm, lastTwo_repr (y + 1) (by omega)]
  · rw [if_neg hm, if_neg hm, lastTwo_repr y (by omega)]

/-- Instantiation of `season_label_rollover` at the year 2025. -/
theorem season_label_rollover_witness :
    season_label 2025 11 =
      (if 10 ≤ 11 then
        Nat.repr 2025 ++ "-" ++ twoDigitRepr ((2025 + 1) % 100)
       else Nat.repr (2025 - 1) ++ "-" ++ twoDigitRepr (2025 % 100)) :=
  season_label_rollover.1 2025 11 (by norm_num)

end FetchData
